import Mathlib

/-!
Shallow embedding of the configuration-resolution code of `fastapi-ecs`:
`src/api/src/config.py` (the current variant, suffix `_api` below) and
`src/src/config.py` (an older variant, suffix `_src` below).

Library calls (`json.loads`, `base64.b64decode`) are taken as parameters of
the model; the process environment is a partial map `String → Option String`;
the outcome of the remote `get_secret_value` call is a parameter of type
`Except AwsError StoreResponse`.  `functools.lru_cache` is modelled as
explicit state passing of a single memoised entry.
-/

namespace Config

/-- A Python/JSON value as it flows through `config.py`: environment strings,
decoded JSON structures, and `PydanticUndefined` (the `field.default` of a
field declared with no default). -/
inductive PValue where
  | str : String → PValue
  | num : Int → PValue
  | bool : Bool → PValue
  | null : PValue
  | list : List PValue → PValue
  | obj : List (String × PValue) → PValue
  | undefined : PValue

/-- The botocore exceptions that `get_secret` can encounter
(`ClientError`, `NoCredentialsError`, `ParamValidationError`, `NoRegionError`). -/
inductive AwsError where
  | clientError : String → AwsError
  | noCredentials : AwsError
  | paramValidation : AwsError
  | noRegion : AwsError
deriving DecidableEq, Repr

/-- A Python exception escaping (or raised inside) the modelled code. -/
inductive PyError where
  | jsonDecodeError : PyError
  | typeError : PyError
  | keyError : PyError
  | invalidMode : PyError
  | aws : AwsError → PyError
deriving DecidableEq, Repr

/-- The process environment: `os.environ.get`. -/
def Env : Type := String → Option String

/-- Python truthiness test `not value` on `os.environ.get(key)`:
true when the variable is absent or the empty string. -/
def envBlank (env : Env) (key : String) : Bool :=
  match env key with
  | none => true
  | some s => s = ""

/-- The response of `client.get_secret_value`: it may carry a
`SecretString` (plain serialized text) and/or a `SecretBinary`
(base64-encoded text). -/
structure StoreResponse where
  secretString : Option String
  secretBinary : Option String
deriving DecidableEq, Repr

/-- `json.loads` applied to a string: the JSON parser itself is a library
function, taken as the parameter `parse`; a `none` from `parse` is the
library raising `json.JSONDecodeError`. -/
def jsonLoadsStr (parse : String → Option PValue) (s : String) :
    Except PyError PValue :=
  match parse s with
  | some v => .ok v
  | none => .error .jsonDecodeError

/-- `json.loads` applied to an arbitrary Python value, as in the local branch
of `prepare_field_value`: on a non-string argument `json.loads` raises
`TypeError`, which is not a `JSONDecodeError`. -/
def jsonLoadsVal (parse : String → Option PValue) : PValue → Except PyError PValue
  | .str s => jsonLoadsStr parse s
  | _ => .error .typeError

/-- Lines 42–46 of `src/api/src/config.py` (and 43–47 of `src/src/config.py`):
`if "SecretString" in response: ... json.loads(response["SecretString"])
else: ... json.loads(base64.b64decode(response["SecretBinary"]))`.
`b64` is the library function `base64.b64decode`. -/
def decodeResponse (parse : String → Option PValue) (b64 : String → String)
    (resp : StoreResponse) : Except PyError PValue :=
  match resp.secretString with
  | some s => jsonLoadsStr parse s
  | none =>
    match resp.secretBinary with
    | some b => jsonLoadsStr parse (b64 b)
    | none => .error .keyError

/-- The outcome of one (uncached) execution of `get_secret`'s body:
the returned value (or the escaping exception) and whether the remote
call `client.get_secret_value` was attempted. -/
structure FetchOutcome where
  result : Except PyError (Option PValue)
  remoteAttempted : Bool

/-- `get_secret` of `src/api/src/config.py` (body, without the `lru_cache`):
reads `AWS_DEFAULT_REGION` and returns `None` if it is blank; builds the
client (`clientCtor` is the outcome of `session.client(...)`); reads
`AWS_SECRET_ID` and returns `None` if it is blank; performs the remote call
(`fetch` is its outcome) and decodes the response.  All four botocore
exception kinds are caught and turned into `None`. -/
def get_secret_api (clientCtor : Except AwsError Unit) (env : Env)
    (parse : String → Option PValue) (b64 : String → String)
    (fetch : Except AwsError StoreResponse) : FetchOutcome :=
  if envBlank env "AWS_DEFAULT_REGION" then
    ⟨.ok none, false⟩
  else
    match clientCtor with
    | .error _ => ⟨.ok none, false⟩
    | .ok _ =>
      if envBlank env "AWS_SECRET_ID" then
        ⟨.ok none, false⟩
      else
        match fetch with
        | .error _ => ⟨.ok none, true⟩
        | .ok resp =>
          match decodeResponse parse b64 resp with
          | .ok v => ⟨.ok (some v), true⟩
          | .error e => ⟨.error e, true⟩

/-- The exception kinds caught by `get_secret` of `src/src/config.py`:
`(ClientError, NoCredentialsError, ParamValidationError)` —
`NoRegionError` is not in the tuple. -/
def caughtSrc : AwsError → Bool
  | .noRegion => false
  | _ => true

/-- `get_secret` of `src/src/config.py` (body, without the `lru_cache`):
builds a fresh session and client (`freshClientCtor`; no region is passed
and no region check exists — `session.client` raises `NoRegionError` when
the ambient configuration yields no region); reads `AWS_SECRET_ID` and
returns `None` if it is blank; performs the remote call and decodes.
Only `ClientError`, `NoCredentialsError` and `ParamValidationError` are
caught; `NoRegionError` escapes. -/
def get_secret_src (freshClientCtor : Except AwsError Unit) (env : Env)
    (parse : String → Option PValue) (b64 : String → String)
    (fetch : Except AwsError StoreResponse) : FetchOutcome :=
  match freshClientCtor with
  | .error e =>
    if caughtSrc e then ⟨.ok none, false⟩ else ⟨.error (.aws e), false⟩
  | .ok _ =>
    if envBlank env "AWS_SECRET_ID" then
      ⟨.ok none, false⟩
    else
      match fetch with
      | .error e =>
        if caughtSrc e then ⟨.ok none, true⟩ else ⟨.error (.aws e), true⟩
      | .ok resp =>
        match decodeResponse parse b64 resp with
        | .ok v => ⟨.ok (some v), true⟩
        | .error e => ⟨.error e, true⟩

/-- Modelled from the spec: the `Environment` enum lives in `constanst.py`,
which is not among the provided sources.  The spec's EnvironmentClassifier:
a fixed set of deployment modes {local, development, production}. -/
inductive DeploymentMode where
  | loc : DeploymentMode
  | development : DeploymentMode
  | production : DeploymentMode
deriving DecidableEq, Repr

/-- The spec's `isLocal` predicate, a pure function of the held mode. -/
def DeploymentMode.is_local : DeploymentMode → Bool
  | .loc => true
  | _ => false

/-- Modelled from the spec: `Environment(raw)` — interprets a raw environment
indicator into a DeploymentMode, failing with an `InvalidMode` error if the
string matches none of the recognized literals (in particular when the
variable is absent). -/
def classifyEnvironment : Option String → Except PyError DeploymentMode
  | some "local" => .ok .loc
  | some "development" => .ok .development
  | some "production" => .ok .production
  | _ => .error .invalidMode

/-- The state of `functools.lru_cache` on the zero-argument `get_secret`:
`none` when empty, `some v` when the return value `v` (itself an
`Option PValue` — blob or `None`) is memoised. -/
def Cache : Type := Option (Option PValue)

/-- `get_secret.cache_clear()`. -/
def cache_clear (_ : Cache) : Cache := none

/-- One call of the cached `get_secret` wrapper: the returned (or raised)
value, the cache afterwards, and how many remote calls this call caused. -/
structure CacheStep where
  result : Except PyError (Option PValue)
  cache : Cache
  fetchCount : Nat

/-- `functools.lru_cache` semantics for one call of `get_secret`: a hit
returns the memoised value with no execution of the body; a miss executes
the body, memoises a returned value, and does not memoise a raised
exception. -/
def cachedGetSecret (body : FetchOutcome) (c : Cache) : CacheStep :=
  match c with
  | some v => ⟨.ok v, some v, 0⟩
  | none =>
    match body.result with
    | .ok v => ⟨.ok v, some v, if body.remoteAttempted then 1 else 0⟩
    | .error e => ⟨.error e, none, if body.remoteAttempted then 1 else 0⟩

/-- `n` successive calls of the cached `get_secret`: final cache and the
total number of remote fetches executed. -/
def runCalls (body : FetchOutcome) : Nat → Cache → Cache × Nat
  | 0, c => (c, 0)
  | n + 1, c =>
    let s := cachedGetSecret body c
    let r := runCalls body n s.cache
    (r.1, s.fetchCount + r.2)

/-- `secret_dict.get(field_name, field.default)` — on a non-dict value
Python raises (`AttributeError`/`TypeError`). -/
def pyDictGet (v : PValue) (key : String) (dflt : PValue) : Except PyError PValue :=
  match v with
  | .obj kvs => .ok ((kvs.lookup key).getD dflt)
  | _ => .error .typeError

/-- `os.environ.get(field_name, field.default)`: the raw environment value
of the field when present (a string), its declared default otherwise. -/
def envOrDefault (env : Env) (field_name : String) (dflt : PValue) : PValue :=
  match env field_name with
  | some s => .str s
  | none => dflt

/-- The outcome of one `prepare_field_value` call: the value returned (or
the exception raised), the number of `get_secret()` invocations (cached or
not), the number of underlying remote fetches, and the cache afterwards. -/
structure ResolveOutcome where
  result : Except PyError PValue
  getSecretCalls : Nat
  remoteFetches : Nat
  cache : Cache

/-- `SecretManagerSource.prepare_field_value` of `src/api/src/config.py`
(lines 62–79): classify `os.environ.get("ENVIRONMENT")`; in local mode read
`os.environ.get(field_name, field.default)` and attempt `json.loads`,
catching only `JSONDecodeError` (return the raw value unchanged then);
otherwise call the cached `get_secret()` once, return `field.default` when
it yields `None`, else `secret_dict.get(field_name, field.default)`. -/
def prepare_field_value_api (clientCtor : Except AwsError Unit) (env : Env)
    (parse : String → Option PValue) (b64 : String → String)
    (fetch : Except AwsError StoreResponse)
    (field_name : String) (dflt : PValue) (c : Cache) : ResolveOutcome :=
  match classifyEnvironment (env "ENVIRONMENT") with
  | .error e => ⟨.error e, 0, 0, c⟩
  | .ok mode =>
    if mode.is_local then
      match jsonLoadsVal parse (envOrDefault env field_name dflt) with
      | .ok v => ⟨.ok v, 0, 0, c⟩
      | .error .jsonDecodeError => ⟨.ok (envOrDefault env field_name dflt), 0, 0, c⟩
      | .error e => ⟨.error e, 0, 0, c⟩
    else
      match cachedGetSecret (get_secret_api clientCtor env parse b64 fetch) c with
      | ⟨.error e, c1, f1⟩ => ⟨.error e, 1, f1, c1⟩
      | ⟨.ok none, c1, f1⟩ => ⟨.ok dflt, 1, f1, c1⟩
      | ⟨.ok (some blob), c1, f1⟩ => ⟨pyDictGet blob field_name dflt, 1, f1, c1⟩

/-- `SecretManagerSource.prepare_field_value` of `src/src/config.py`
(lines 58–65): no deployment-mode branch at all; calls `get_secret()` for
the `None` check and then `get_secret().get(field_name, field.default)`
a second time (both through the `lru_cache`). -/
def prepare_field_value_src (freshClientCtor : Except AwsError Unit) (env : Env)
    (parse : String → Option PValue) (b64 : String → String)
    (fetch : Except AwsError StoreResponse)
    (field_name : String) (dflt : PValue) (c : Cache) : ResolveOutcome :=
  match cachedGetSecret (get_secret_src freshClientCtor env parse b64 fetch) c with
  | ⟨.error e, c1, f1⟩ => ⟨.error e, 1, f1, c1⟩
  | ⟨.ok none, c1, f1⟩ => ⟨.ok dflt, 1, f1, c1⟩
  | ⟨.ok (some _), c1, f1⟩ =>
    match cachedGetSecret (get_secret_src freshClientCtor env parse b64 fetch) c1 with
    | ⟨.error e, c2, f2⟩ => ⟨.error e, 2, f1 + f2, c2⟩
    | ⟨.ok none, c2, f2⟩ => ⟨.error .typeError, 2, f1 + f2, c2⟩
    | ⟨.ok (some blob), c2, f2⟩ => ⟨pyDictGet blob field_name dflt, 2, f1 + f2, c2⟩

/-- `True` exactly for `PydanticUndefined`, i.e. for a field that ended up
with no value at all. -/
def PValue.isUndefined : PValue → Bool
  | .undefined => true
  | _ => false

/-- An error failing the whole settings load: either a Python exception
escaping field resolution, or the validation-level missing-required-field
error naming the field. -/
inductive LoadError where
  | py : PyError → LoadError
  | missingRequiredField : String → LoadError

/-- Modelled from the spec: the validation step of `AppSettings()` is
performed by the pydantic `BaseSettings` machinery, which is library code
outside this repository.  Per the spec, any required field that ends up
unresolved (its slot still `PydanticUndefined`) fails the entire load with
a `MissingRequiredField` error identifying the field name — atomic
success/failure, never a partially valid object.  (Type coercion of the
individual values is out of scope of the claims and not modelled.) -/
def loadSettings (resolved : List (String × PValue)) :
    Except LoadError (List (String × PValue)) :=
  match resolved.find? (fun kv => kv.2.isUndefined) with
  | some kv => .error (.missingRequiredField kv.1)
  | none => .ok resolved

/-- Resolution of every declared field of `AppSettings` in order, through
`prepare_field_value` of `src/api/src/config.py`, threading the
`lru_cache` state; a raised exception aborts the whole pass. -/
def resolveAll_api (clientCtor : Except AwsError Unit) (env : Env)
    (parse : String → Option PValue) (b64 : String → String)
    (fetch : Except AwsError StoreResponse) :
    List (String × PValue) → Cache → Except PyError (List (String × PValue)) × Cache
  | [], c => (.ok [], c)
  | (name, dflt) :: rest, c =>
    let r := prepare_field_value_api clientCtor env parse b64 fetch name dflt c
    match r.result with
    | .error e => (.error e, r.cache)
    | .ok v =>
      match resolveAll_api clientCtor env parse b64 fetch rest r.cache with
      | (.error e, cf) => (.error e, cf)
      | (.ok vs, cf) => (.ok ((name, v) :: vs), cf)

/-- Same, through `prepare_field_value` of `src/src/config.py`. -/
def resolveAll_src (freshClientCtor : Except AwsError Unit) (env : Env)
    (parse : String → Option PValue) (b64 : String → String)
    (fetch : Except AwsError StoreResponse) :
    List (String × PValue) → Cache → Except PyError (List (String × PValue)) × Cache
  | [], c => (.ok [], c)
  | (name, dflt) :: rest, c =>
    let r := prepare_field_value_src freshClientCtor env parse b64 fetch name dflt c
    match r.result with
    | .error e => (.error e, r.cache)
    | .ok v =>
      match resolveAll_src freshClientCtor env parse b64 fetch rest r.cache with
      | (.error e, cf) => (.error e, cf)
      | (.ok vs, cf) => (.ok ((name, v) :: vs), cf)

/-- The state of the `src/api/src/config.py` module once it loaded
successfully: the validated settings and the `lru_cache` state. -/
structure ApiModule where
  settings : List (String × PValue)
  cache : Cache

/-- The tail of `src/api/src/config.py`:
`settings = AppSettings()` followed by `get_secret.cache_clear()`.
A resolution exception or a validation error escapes before `cache_clear`
is reached; on success the cache is cleared immediately after the settings
object is built. -/
def moduleInit_api (clientCtor : Except AwsError Unit) (env : Env)
    (parse : String → Option PValue) (b64 : String → String)
    (fetch : Except AwsError StoreResponse)
    (fields : List (String × PValue)) : Except LoadError ApiModule :=
  match (resolveAll_api clientCtor env parse b64 fetch fields none).1 with
  | .error e => .error (.py e)
  | .ok resolved =>
    match loadSettings resolved with
    | .error e => .error e
    | .ok s =>
      .ok ⟨s, cache_clear (resolveAll_api clientCtor env parse b64 fetch fields none).2⟩

/-- The state of the `src/src/config.py` module once it loaded
successfully: the module-level `secretsmanager_client` (built at import
time, before anything else), the settings, and the `lru_cache` state. -/
structure SrcModule where
  secretsmanager_client : String
  settings : List (String × PValue)
  cache : Cache

/-- Import of `src/src/config.py`: first the module-scope
`session = Session(); secretsmanager_client = session.client(...)`
(outcome `moduleClientCtor`; outside any try/except, so a failure
propagates), then `settings = AppSettings()` and
`get_secret.cache_clear()` exactly as in the other variant.
`get_secret` builds its own fresh client (`freshClientCtor`) on every
uncached call and never touches the module-level one. -/
def moduleInit_src (moduleClientCtor : Except AwsError String)
    (freshClientCtor : Except AwsError Unit) (env : Env)
    (parse : String → Option PValue) (b64 : String → String)
    (fetch : Except AwsError StoreResponse)
    (fields : List (String × PValue)) : Except LoadError SrcModule :=
  match moduleClientCtor with
  | .error e => .error (.py (.aws e))
  | .ok mc =>
    match (resolveAll_src freshClientCtor env parse b64 fetch fields none).1 with
    | .error e => .error (.py e)
    | .ok resolved =>
      match loadSettings resolved with
      | .error e => .error e
      | .ok s =>
        .ok ⟨mc, s,
          cache_clear (resolveAll_src freshClientCtor env parse b64 fetch fields none).2⟩

/-- Everything of a `src/src/config.py` import result except the stored
module-level client. -/
def srcModuleSansClient (m : Except LoadError SrcModule) :
    Except LoadError (List (String × PValue) × Cache) :=
  match m with
  | .error e => .error e
  | .ok s => .ok (s.settings, s.cache)

/-- The fields declared on `AppSettings` in `src/api/src/config.py`
(lines 82–139), all required, none with a default
(`field.default = PydanticUndefined`). -/
def appSettingsFields_api : List (String × PValue) :=
  [("ENVIRONMENT", .undefined), ("JWT_ALG", .undefined),
   ("JWT_ACCESS_EXP", .undefined), ("JWT_REFRESH_EXP", .undefined),
   ("JWT_PUBLIC_KEY", .undefined), ("JWT_PRIVATE_KEY", .undefined),
   ("CORS_HEADERS", .undefined), ("CORS_ORIGINS", .undefined),
   ("DYNAMODB_TABLE_NAME", .undefined),
   ("MYSQL_USER", .undefined), ("MYSQL_PASSWORD", .undefined),
   ("MYSQL_HOST", .undefined), ("MYSQL_PORT", .undefined),
   ("MYSQL_DB", .undefined)]

/-- The fields declared on `AppSettings` in `src/src/config.py`
(lines 68–116), all required, none with a default. -/
def appSettingsFields_src : List (String × PValue) :=
  [("ENVIRONMENT", .undefined), ("JWT_ALG", .undefined),
   ("JWT_EXP", .undefined),
   ("JWT_PUBLIC_KEY", .undefined), ("JWT_PRIVATE_KEY", .undefined),
   ("CORS_HEADERS", .undefined), ("CORS_ORIGINS", .undefined),
   ("POSTGRES_USER", .undefined), ("POSTGRES_PASSWORD", .undefined),
   ("POSTGRES_HOST", .undefined), ("POSTGRES_PORT", .undefined),
   ("POSTGRES_DB", .undefined)]

/-! ### Concrete fixtures for witnesses and counterexamples -/

/-- A process environment for local mode, with store configuration and one
field variable set. -/
def cEnvLocal : Env := fun k =>
  if k = "ENVIRONMENT" then some "local"
  else if k = "AWS_DEFAULT_REGION" then some "us-east-1"
  else if k = "AWS_SECRET_ID" then some "app-secret"
  else if k = "CORS_HEADERS" then some "a,b,c"
  else none

/-- A process environment for production mode with full store
configuration. -/
def cEnvProd : Env := fun k =>
  if k = "ENVIRONMENT" then some "production"
  else if k = "AWS_DEFAULT_REGION" then some "us-east-1"
  else if k = "AWS_SECRET_ID" then some "app-secret"
  else none

/-- A production environment in which `AWS_DEFAULT_REGION` is not set. -/
def cEnvNoRegion : Env := fun k =>
  if k = "ENVIRONMENT" then some "production"
  else if k = "AWS_SECRET_ID" then some "app-secret"
  else none

/-- A concrete decoded secret blob. -/
def cBlob : PValue := .obj [("JWT_ALG", .str "RS256")]

/-- A concrete JSON parser recognising exactly the payload `cFetchPlain`
carries. -/
def cParse : String → Option PValue :=
  fun s => if s = "secret-payload" then some cBlob else none

/-- A parser on which every input fails to decode. -/
def cParseNone : String → Option PValue := fun _ => none

/-- A concrete base64 decoder for the one encoded payload used in tests. -/
def cB64 : String → String :=
  fun s => if s = "c2VjcmV0" then "secret-payload" else s

/-- A successful store response carrying a plain `SecretString`. -/
def cFetchPlain : Except AwsError StoreResponse := .ok ⟨some "secret-payload", none⟩

/-! ### Helper lemmas -/

/-- When a cached call returns a value, that value is memoised in the
resulting cache. -/
theorem cachedGetSecret_ok_cache (body : FetchOutcome) (c : Cache)
    (v : Option PValue) (h : (cachedGetSecret body c).result = .ok v) :
    (cachedGetSecret body c).cache = some v := by
  cases c with
  | some w =>
    simp only [cachedGetSecret] at h ⊢
    cases h
    rfl
  | none =>
    simp only [cachedGetSecret] at h ⊢
    cases hb : body.result with
    | ok w => simp only [hb] at h ⊢; cases h; rfl
    | error e => simp only [hb] at h; cases h

/-- After the memoised entry is populated, further calls are hits: no
fetch ever executes again. -/
theorem runCalls_hit (body : FetchOutcome) (n : Nat) (v : Option PValue) :
    runCalls body n (some v) = (some v, 0) := by
  induction n with
  | zero => rfl
  | succ n ih =>
    simp only [runCalls, cachedGetSecret, ih]

/-- When the body returns (rather than raises), any number of cached calls
from the empty cache executes at most one remote fetch. -/
theorem runCalls_le_one (body : FetchOutcome) (r : Option PValue)
    (h : body.result = .ok r) (n : Nat) :
    (runCalls body n none).2 ≤ 1 := by
  cases n with
  | zero => simp [runCalls]
  | succ n =>
    simp only [runCalls, cachedGetSecret, h, runCalls_hit]
    cases body.remoteAttempted <;> simp

/-- The pure local-mode resolution of `src/api/src/config.py`: a function of
only the field's own environment variable, its declared default and the JSON
parser — used to state that local-mode resolution reads nothing else. -/
def localResolve (parse : String → Option PValue) (raw : Option String)
    (dflt : PValue) : Except PyError PValue :=
  match jsonLoadsVal parse (match raw with | some s => .str s | none => dflt) with
  | .ok v => .ok v
  | .error .jsonDecodeError => .ok (match raw with | some s => .str s | none => dflt)
  | .error e => .error e

/-- C1 fails as stated: in `src/src/config.py`, `prepare_field_value` has no
local branch, so with `ENVIRONMENT=local` the secret-store fetch is still
invoked (here: one remote fetch executes and the field is served from the
blob). -/
theorem C1_counterexample :
    cEnvLocal "ENVIRONMENT" = some "local" ∧
    (prepare_field_value_src (.ok ()) cEnvLocal cParse cB64 cFetchPlain
      "JWT_ALG" PValue.undefined none).remoteFetches = 1 ∧
    (prepare_field_value_src (.ok ()) cEnvLocal cParse cB64 cFetchPlain
      "JWT_ALG" PValue.undefined none).getSecretCalls = 2 :=
  ⟨rfl, rfl, rfl⟩

/-- C1 (amended): in `src/api/src/config.py`, a field resolved in local mode
is computed from the process environment and the declared default alone
(`localResolve`), with zero `get_secret` invocations, zero remote fetches
and an untouched cache; in `src/src/config.py` there is no local branch and
every resolution invokes `get_secret` at least once, in every mode. -/
theorem C1_amended :
    (∀ (cc : Except AwsError Unit) (env : Env) (parse : String → Option PValue)
       (b64 : String → String) (fetch : Except AwsError StoreResponse)
       (name : String) (dflt : PValue) (c : Cache),
       classifyEnvironment (env "ENVIRONMENT") = .ok .loc →
       prepare_field_value_api cc env parse b64 fetch name dflt c =
         ⟨localResolve parse (env name) dflt, 0, 0, c⟩) ∧
    (∀ (fcc : Except AwsError Unit) (env : Env) (parse : String → Option PValue)
       (b64 : String → String) (fetch : Except AwsError StoreResponse)
       (name : String) (dflt : PValue) (c : Cache),
       1 ≤ (prepare_field_value_src fcc env parse b64 fetch name dflt c).getSecretCalls) := by
  constructor
  · intro cc env parse b64 fetch name dflt c h
    unfold prepare_field_value_api localResolve envOrDefault
    rw [h]
    simp only [DeploymentMode.is_local, if_true]
    cases hv : jsonLoadsVal parse
        (match env name with | some s => .str s | none => dflt) with
    | ok v => simp [hv]
    | error e => cases e <;> simp [hv]
  · intro fcc env parse b64 fetch name dflt c
    unfold prepare_field_value_src
    split
    · simp
    · simp
    · split <;> simp

/-- Concrete instance of `C1_amended`: a local-mode resolution of
`MYSQL_HOST` through the `src/api` variant touches neither `get_secret`
nor the cache. -/
theorem C1_witness :
    prepare_field_value_api (.ok ()) cEnvLocal cParseNone cB64 cFetchPlain
      "MYSQL_HOST" (PValue.str "db") none =
    ⟨localResolve cParseNone (cEnvLocal "MYSQL_HOST") (PValue.str "db"), 0, 0, none⟩ :=
  C1_amended.1 (.ok ()) cEnvLocal cParseNone cB64 cFetchPlain
    "MYSQL_HOST" (PValue.str "db") none rfl

/-- C2: in a non-local mode, a resolution whose cached secret fetch yields
no blob returns the declared default; with a blob present, a field name
absent from it yields the declared default and a present field name yields
the blob's value unchanged (round-trip).  This holds for both variants
(`src/src/config.py` has no mode branch, so it behaves this way in every
mode; its second `get_secret()` call is served by the cache). -/
theorem C2_nonlocal_default_or_blob :
    (∀ (cc : Except AwsError Unit) (env : Env) (parse : String → Option PValue)
       (b64 : String → String) (fetch : Except AwsError StoreResponse)
       (name : String) (dflt : PValue) (c : Cache) (m : DeploymentMode),
      classifyEnvironment (env "ENVIRONMENT") = .ok m → m.is_local = false →
      ((cachedGetSecret (get_secret_api cc env parse b64 fetch) c).result = .ok none →
        (prepare_field_value_api cc env parse b64 fetch name dflt c).result = .ok dflt) ∧
      (∀ kvs, (cachedGetSecret (get_secret_api cc env parse b64 fetch) c).result
          = .ok (some (.obj kvs)) →
        (kvs.lookup name = none →
          (prepare_field_value_api cc env parse b64 fetch name dflt c).result = .ok dflt) ∧
        (∀ v, kvs.lookup name = some v →
          (prepare_field_value_api cc env parse b64 fetch name dflt c).result = .ok v))) ∧
    (∀ (fcc : Except AwsError Unit) (env : Env) (parse : String → Option PValue)
       (b64 : String → String) (fetch : Except AwsError StoreResponse)
       (name : String) (dflt : PValue) (c : Cache),
      ((cachedGetSecret (get_secret_src fcc env parse b64 fetch) c).result = .ok none →
        (prepare_field_value_src fcc env parse b64 fetch name dflt c).result = .ok dflt) ∧
      (∀ kvs, (cachedGetSecret (get_secret_src fcc env parse b64 fetch) c).result
          = .ok (some (.obj kvs)) →
        (kvs.lookup name = none →
          (prepare_field_value_src fcc env parse b64 fetch name dflt c).result = .ok dflt) ∧
        (∀ v, kvs.lookup name = some v →
          (prepare_field_value_src fcc env parse b64 fetch name dflt c).result = .ok v))) := by
  constructor
  · intro cc env parse b64 fetch name dflt c m h hm
    unfold prepare_field_value_api
    rw [h]
    simp only [hm, Bool.false_eq_true, if_false]
    cases hs : cachedGetSecret (get_secret_api cc env parse b64 fetch) c with
    | mk res c1 f1 =>
      constructor
      · intro hres
        have hres2 : res = .ok none := hres
        subst hres2
        rfl
      · intro kvs hres
        have hres2 : res = .ok (some (.obj kvs)) := hres
        subst hres2
        constructor
        · intro hl
          simp [pyDictGet, hl]
        · intro v hl
          simp [pyDictGet, hl]
  · intro fcc env parse b64 fetch name dflt c
    cases hs : cachedGetSecret (get_secret_src fcc env parse b64 fetch) c with
    | mk res c1 f1 =>
      unfold prepare_field_value_src
      rw [hs]
      constructor
      · intro hres
        have hres2 : res = .ok none := hres
        subst hres2
        rfl
      · intro kvs hres
        have hres2 : res = .ok (some (.obj kvs)) := hres
        subst hres2
        have hc1 : c1 = some (some (.obj kvs)) := by
          have hcc := cachedGetSecret_ok_cache (get_secret_src fcc env parse b64 fetch) c
            (some (.obj kvs)) (by rw [hs])
          rw [hs] at hcc
          exact hcc
        subst hc1
        constructor
        · intro hl
          simp [cachedGetSecret, pyDictGet, hl]
        · intro v hl
          simp [cachedGetSecret, pyDictGet, hl]

/-- Concrete instance of `C2_nonlocal_default_or_blob`: in production mode,
a value stored in the blob under the field name comes back identical. -/
theorem C2_witness :
    (prepare_field_value_api (.ok ()) cEnvProd cParse cB64 cFetchPlain
      "JWT_ALG" (PValue.str "fallback") (some (some cBlob))).result
      = .ok (PValue.str "RS256") :=
  ((C2_nonlocal_default_or_blob.1 (.ok ()) cEnvProd cParse cB64 cFetchPlain
      "JWT_ALG" (PValue.str "fallback") (some (some cBlob))
      .production rfl rfl).2
    [("JWT_ALG", PValue.str "RS256")] rfl).2 (PValue.str "RS256") rfl

/-- C3 fails as stated: in `src/src/config.py` the except-tuple omits
`NoRegionError`, so a `NoRegion` failure raised while building the client
propagates out of `get_secret` instead of yielding `None`. -/
theorem C3_counterexample :
    (get_secret_src (.error .noRegion) cEnvProd cParse cB64 cFetchPlain).result
      = .error (.aws .noRegion) ∧
    (get_secret_src (.error .noRegion) cEnvProd cParse cB64 cFetchPlain).result
      ≠ .ok none := by
  refine ⟨rfl, ?_⟩
  intro hcontra
  cases hcontra

/-- C3 (amended): in `src/api/src/config.py` every `NoCredentials`,
`NoRegion`, `ParamValidation` or `ClientError` failure — whether raised by
the client constructor or by the remote call — makes `get_secret` return
`None`; in `src/src/config.py` the same holds for `NoCredentials`,
`ParamValidation` and `ClientError`, but a `NoRegion` failure is not caught
and propagates. -/
theorem C3_amended :
    (∀ (cc : Except AwsError Unit) (env : Env) (parse : String → Option PValue)
       (b64 : String → String) (e : AwsError),
      (get_secret_api cc env parse b64 (.error e)).result = .ok none) ∧
    (∀ (e : AwsError) (env : Env) (parse : String → Option PValue)
       (b64 : String → String) (fetch : Except AwsError StoreResponse),
      (get_secret_api (.error e) env parse b64 fetch).result = .ok none) ∧
    (∀ (env : Env) (parse : String → Option PValue) (b64 : String → String)
       (e : AwsError), caughtSrc e = true →
      (get_secret_src (.ok ()) env parse b64 (.error e)).result = .ok none) ∧
    (∀ (e : AwsError) (env : Env) (parse : String → Option PValue)
       (b64 : String → String) (fetch : Except AwsError StoreResponse),
      caughtSrc e = true →
      (get_secret_src (.error e) env parse b64 fetch).result = .ok none) ∧
    (∀ (env : Env) (parse : String → Option PValue) (b64 : String → String)
       (fetch : Except AwsError StoreResponse),
      (get_secret_src (.error .noRegion) env parse b64 fetch).result
        = .error (.aws .noRegion)) := by
  refine ⟨?_, ?_, ?_, ?_, ?_⟩
  · intro cc env parse b64 e
    by_cases h1 : envBlank env "AWS_DEFAULT_REGION" = true
    · simp [get_secret_api, h1]
    · cases cc with
      | error e2 => simp [get_secret_api, h1]
      | ok u =>
        by_cases h2 : envBlank env "AWS_SECRET_ID" = true
        · simp [get_secret_api, h1, h2]
        · simp [get_secret_api, h1, h2]
  · intro e env parse b64 fetch
    by_cases h1 : envBlank env "AWS_DEFAULT_REGION" = true
    · simp [get_secret_api, h1]
    · simp [get_secret_api, h1]
  · intro env parse b64 e hcaught
    by_cases h2 : envBlank env "AWS_SECRET_ID" = true
    · simp [get_secret_src, h2]
    · simp [get_secret_src, h2, hcaught]
  · intro e env parse b64 fetch hcaught
    simp [get_secret_src, hcaught]
  · intro env parse b64 fetch
    rfl

/-- Concrete instance of `C3_amended`: a remote `ClientError` in the
`src/src` variant yields `None`. -/
theorem C3_witness :
    (get_secret_src (.ok ()) cEnvProd cParse cB64
      (.error (.clientError "AccessDeniedException"))).result = .ok none :=
  C3_amended.2.2.1 cEnvProd cParse cB64 (.clientError "AccessDeniedException") rfl

/-- C4: across any number of cached `get_secret` calls starting from the
empty cache, the underlying remote fetch executes at most once, whenever
the body returns (a blob or `None` — both are memoised by `lru_cache`);
for both variants. -/
theorem C4_fetch_at_most_once :
    (∀ (cc : Except AwsError Unit) (env : Env) (parse : String → Option PValue)
       (b64 : String → String) (fetch : Except AwsError StoreResponse)
       (r : Option PValue) (n : Nat),
      (get_secret_api cc env parse b64 fetch).result = .ok r →
      (runCalls (get_secret_api cc env parse b64 fetch) n none).2 ≤ 1) ∧
    (∀ (fcc : Except AwsError Unit) (env : Env) (parse : String → Option PValue)
       (b64 : String → String) (fetch : Except AwsError StoreResponse)
       (r : Option PValue) (n : Nat),
      (get_secret_src fcc env parse b64 fetch).result = .ok r →
      (runCalls (get_secret_src fcc env parse b64 fetch) n none).2 ≤ 1) :=
  ⟨fun _ _ _ _ _ r n h => runCalls_le_one _ r h n,
   fun _ _ _ _ _ r n h => runCalls_le_one _ r h n⟩

/-- Concrete instance of `C4_fetch_at_most_once`: three resolution calls
after a successful fetch cause at most one remote call. -/
theorem C4_witness :
    (runCalls (get_secret_api (.ok ()) cEnvProd cParse cB64 cFetchPlain)
      3 none).2 ≤ 1 :=
  C4_fetch_at_most_once.1 (.ok ()) cEnvProd cParse cB64 cFetchPlain
    (some cBlob) 3 rfl

/-- C5 fails as stated: `get_secret` of `src/src/config.py` never reads
`AWS_DEFAULT_REGION`; with the region variable absent (but a secret id set)
it still attempts the remote call and returns its blob instead of failing
fast with no blob. -/
theorem C5_counterexample :
    cEnvNoRegion "AWS_DEFAULT_REGION" = none ∧
    (get_secret_src (.ok ()) cEnvNoRegion cParse cB64 cFetchPlain).remoteAttempted
      = true ∧
    (get_secret_src (.ok ()) cEnvNoRegion cParse cB64 cFetchPlain).result
      = .ok (some cBlob) :=
  ⟨rfl, rfl, rfl⟩

/-- C5 (amended): `get_secret` of `src/api/src/config.py` requires both
`AWS_DEFAULT_REGION` and `AWS_SECRET_ID` to be non-empty and otherwise
returns no blob without attempting the remote call; `get_secret` of
`src/src/config.py` checks only `AWS_SECRET_ID` this way, and with a secret
id present proceeds to the remote call regardless of the region variable. -/
theorem C5_amended :
    (∀ (cc : Except AwsError Unit) (env : Env) (parse : String → Option PValue)
       (b64 : String → String) (fetch : Except AwsError StoreResponse),
      envBlank env "AWS_DEFAULT_REGION" = true →
      get_secret_api cc env parse b64 fetch = ⟨.ok none, false⟩) ∧
    (∀ (cc : Except AwsError Unit) (env : Env) (parse : String → Option PValue)
       (b64 : String → String) (fetch : Except AwsError StoreResponse),
      envBlank env "AWS_SECRET_ID" = true →
      (get_secret_api cc env parse b64 fetch).result = .ok none ∧
      (get_secret_api cc env parse b64 fetch).remoteAttempted = false) ∧
    (∀ (env : Env) (parse : String → Option PValue) (b64 : String → String)
       (fetch : Except AwsError StoreResponse),
      envBlank env "AWS_SECRET_ID" = true →
      get_secret_src (.ok ()) env parse b64 fetch = ⟨.ok none, false⟩) ∧
    (∀ (env : Env) (parse : String → Option PValue) (b64 : String → String)
       (fetch : Except AwsError StoreResponse),
      envBlank env "AWS_SECRET_ID" = false →
      (get_secret_src (.ok ()) env parse b64 fetch).remoteAttempted = true) := by
  refine ⟨?_, ?_, ?_, ?_⟩
  · intro cc env parse b64 fetch h
    simp [get_secret_api, h]
  · intro cc env parse b64 fetch h
    unfold get_secret_api
    split
    · exact ⟨rfl, rfl⟩
    · cases cc with
      | error => exact ⟨rfl, rfl⟩
      | ok _ => simp [h]
  · intro env parse b64 fetch h
    simp [get_secret_src, h]
  · intro env parse b64 fetch h
    cases fetch with
    | error e =>
      by_cases hc : caughtSrc e = true
      · simp [get_secret_src, h, hc]
      · simp [get_secret_src, h, hc]
    | ok resp =>
      cases hd : decodeResponse parse b64 resp with
      | ok v => simp [get_secret_src, h, hd]
      | error e2 => simp [get_secret_src, h, hd]

/-- Concrete instance of `C5_amended`: with no region in the environment,
the `src/api` variant fails fast with no blob and no remote attempt. -/
theorem C5_witness :
    get_secret_api (.ok ()) cEnvNoRegion cParse cB64 cFetchPlain
      = ⟨.ok none, false⟩ :=
  C5_amended.1 (.ok ()) cEnvNoRegion cParse cB64 cFetchPlain rfl

/-- C6: in local mode, when the raw string (from the field's environment
variable, or a string declared default) fails the structured decode, it is
returned unchanged — an `.ok` outcome, never an error. -/
theorem C6_local_decode_fallback :
    ∀ (cc : Except AwsError Unit) (env : Env) (parse : String → Option PValue)
      (b64 : String → String) (fetch : Except AwsError StoreResponse)
      (name : String) (dflt : PValue) (c : Cache),
      classifyEnvironment (env "ENVIRONMENT") = .ok .loc →
      (∀ s, env name = some s → parse s = none →
        prepare_field_value_api cc env parse b64 fetch name dflt c
          = ⟨.ok (.str s), 0, 0, c⟩) ∧
      (env name = none → ∀ s, dflt = .str s → parse s = none →
        prepare_field_value_api cc env parse b64 fetch name dflt c
          = ⟨.ok (.str s), 0, 0, c⟩) := by
  intro cc env parse b64 fetch name dflt c h
  constructor
  · intro s hs hp
    unfold prepare_field_value_api envOrDefault
    rw [h]
    simp only [DeploymentMode.is_local, if_true]
    rw [hs]
    simp [jsonLoadsVal, jsonLoadsStr, hp]
  · intro hn s hd hp
    unfold prepare_field_value_api envOrDefault
    rw [h]
    simp only [DeploymentMode.is_local, if_true]
    rw [hn, hd]
    simp [jsonLoadsVal, jsonLoadsStr, hp]

/-- Concrete instance of `C6_local_decode_fallback`: in local mode the
list-typed field `CORS_HEADERS` set to the non-JSON string `a,b,c` yields
the raw string back, with no error. -/
theorem C6_witness :
    prepare_field_value_api (.ok ()) cEnvLocal cParseNone cB64 cFetchPlain
      "CORS_HEADERS" PValue.undefined none
      = ⟨.ok (PValue.str "a,b,c"), 0, 0, none⟩ :=
  (C6_local_decode_fallback (.ok ()) cEnvLocal cParseNone cB64 cFetchPlain
    "CORS_HEADERS" PValue.undefined none rfl).1 "a,b,c" rfl rfl

/-- C7: on a successful store response, exactly one decode path is taken —
a present `SecretString` is parsed directly (the binary slot is never
consulted), an absent one routes through base64-then-parse; and a
base64-encoded payload decodes to the same mapping as the equivalent plain
payload. -/
theorem C7_single_decode_path :
    (∀ (parse : String → Option PValue) (b64 : String → String) (s : String)
       (bin1 bin2 : Option String),
      decodeResponse parse b64 ⟨some s, bin1⟩ = jsonLoadsStr parse s ∧
      decodeResponse parse b64 ⟨some s, bin1⟩ = decodeResponse parse b64 ⟨some s, bin2⟩) ∧
    (∀ (parse : String → Option PValue) (b64 : String → String) (bin : String),
      decodeResponse parse b64 ⟨none, some bin⟩ = jsonLoadsStr parse (b64 bin)) ∧
    (∀ (parse : String → Option PValue) (b64 : String → String) (s bin : String),
      b64 bin = s →
      decodeResponse parse b64 ⟨none, some bin⟩
        = decodeResponse parse b64 ⟨some s, none⟩) := by
  refine ⟨fun parse b64 s bin1 bin2 => ⟨rfl, rfl⟩, fun parse b64 bin => rfl, ?_⟩
  intro parse b64 s bin h
  simp [decodeResponse, h]

/-- Concrete instance of `C7_single_decode_path`: the base64 payload
decoding to `secret-payload` parses to the same mapping as the plain
response carrying `secret-payload`. -/
theorem C7_witness :
    decodeResponse cParse cB64 ⟨none, some "c2VjcmV0"⟩
      = decodeResponse cParse cB64 ⟨some "secret-payload", none⟩ :=
  C7_single_decode_path.2.2 cParse cB64 "secret-payload" "c2VjcmV0" rfl

/-- C8: a required field left `PydanticUndefined` after resolution fails the
whole load with `MissingRequiredField` naming an unresolved field, and no
settings object is produced; a successful load contains no undefined slot;
and in a non-local mode a blob lacking a no-default field indeed leaves that
field's slot `PydanticUndefined`. -/
theorem C8_missing_required_field :
    (∀ (resolved : List (String × PValue)) (name : String),
      (name, PValue.undefined) ∈ resolved →
      (∃ n, loadSettings resolved = .error (.missingRequiredField n) ∧
        (n, PValue.undefined) ∈ resolved) ∧
      ∀ out, loadSettings resolved ≠ .ok out) ∧
    (∀ (rs out : List (String × PValue)),
      loadSettings rs = .ok out →
      out = rs ∧ ∀ kv ∈ out, kv.2.isUndefined = false) ∧
    (∀ (cc : Except AwsError Unit) (env : Env) (parse : String → Option PValue)
       (b64 : String → String) (fetch : Except AwsError StoreResponse)
       (name : String) (c : Cache) (kvs : List (String × PValue))
       (m : DeploymentMode),
      classifyEnvironment (env "ENVIRONMENT") = .ok m → m.is_local = false →
      (cachedGetSecret (get_secret_api cc env parse b64 fetch) c).result
        = .ok (some (.obj kvs)) →
      kvs.lookup name = none →
      (prepare_field_value_api cc env parse b64 fetch name PValue.undefined c).result
        = .ok PValue.undefined) := by
  refine ⟨?_, ?_, ?_⟩
  · intro resolved name hmem
    have hfind : (resolved.find? (fun kv => kv.2.isUndefined)).isSome := by
      rw [List.find?_isSome]
      exact ⟨(name, PValue.undefined), hmem, rfl⟩
    obtain ⟨kv, hkv⟩ := Option.isSome_iff_exists.mp hfind
    obtain ⟨k1, k2⟩ := kv
    have hpred : PValue.isUndefined k2 = true := by
      simpa using List.find?_some hkv
    have hmem2 : (k1, k2) ∈ resolved := List.mem_of_find?_eq_some hkv
    have hk2 : k2 = PValue.undefined := by
      cases k2 <;> simp [PValue.isUndefined] at hpred ⊢
    subst hk2
    constructor
    · exact ⟨k1, by simp [loadSettings, hkv], hmem2⟩
    · intro out hout
      simp [loadSettings, hkv] at hout
  · intro rs out h
    unfold loadSettings at h
    cases hf : rs.find? (fun kv => kv.2.isUndefined) with
    | some kv => rw [hf] at h; cases h
    | none =>
      rw [hf] at h
      cases h
      refine ⟨rfl, ?_⟩
      intro kv hkv
      have := List.find?_eq_none.mp hf kv hkv
      simpa using this
  · intro cc env parse b64 fetch name c kvs m h hm hres hlook
    unfold prepare_field_value_api
    rw [h]
    simp only [hm, Bool.false_eq_true, if_false]
    cases hs : cachedGetSecret (get_secret_api cc env parse b64 fetch) c with
    | mk res c1 f1 =>
      rw [hs] at hres
      have hres2 : res = .ok (some (.obj kvs)) := hres
      subst hres2
      simp [pyDictGet, hlook]

/-- Concrete instance of `C8_missing_required_field`: a resolution pass that
left `JWT_ALG` undefined fails the load with a named missing field and
yields no settings object. -/
theorem C8_witness :
    (∃ n, loadSettings
        [("ENVIRONMENT", PValue.str "production"), ("JWT_ALG", PValue.undefined)]
        = .error (.missingRequiredField n) ∧
      (n, PValue.undefined) ∈
        [("ENVIRONMENT", PValue.str "production"), ("JWT_ALG", PValue.undefined)]) ∧
    ∀ out, loadSettings
        [("ENVIRONMENT", PValue.str "production"), ("JWT_ALG", PValue.undefined)]
        ≠ .ok out :=
  C8_missing_required_field.1
    [("ENVIRONMENT", PValue.str "production"), ("JWT_ALG", PValue.undefined)]
    "JWT_ALG" (List.Mem.tail _ (List.Mem.head _))

/-- C9: the module tail builds the settings and then immediately clears the
memoised `get_secret` entry: `cache_clear` always leaves an empty cache,
and any successful module import (either variant) ends with no cache
entry — the cleared cache being exactly `cache_clear` of the cache state
right after resolution. -/
theorem C9_cache_cleared_after_build :
    (∀ c : Cache, cache_clear c = none) ∧
    (∀ (cc : Except AwsError Unit) (env : Env) (parse : String → Option PValue)
       (b64 : String → String) (fetch : Except AwsError StoreResponse)
       (fields : List (String × PValue)) (m : ApiModule),
      moduleInit_api cc env parse b64 fetch fields = .ok m →
      m.cache = none ∧
      m.cache = cache_clear (resolveAll_api cc env parse b64 fetch fields none).2) ∧
    (∀ (mcc : Except AwsError String) (fcc : Except AwsError Unit) (env : Env)
       (parse : String → Option PValue) (b64 : String → String)
       (fetch : Except AwsError StoreResponse)
       (fields : List (String × PValue)) (m : SrcModule),
      moduleInit_src mcc fcc env parse b64 fetch fields = .ok m →
      m.cache = none) := by
  refine ⟨fun c => rfl, ?_, ?_⟩
  · intro cc env parse b64 fetch fields m h
    unfold moduleInit_api at h
    cases hr : (resolveAll_api cc env parse b64 fetch fields none).1 with
    | error e => simp only [hr] at h; cases h
    | ok resolved =>
      simp only [hr] at h
      cases hl : loadSettings resolved with
      | error e => simp only [hl] at h; cases h
      | ok s =>
        simp only [hl] at h
        cases h
        exact ⟨rfl, rfl⟩
  · intro mcc fcc env parse b64 fetch fields m h
    cases mcc with
    | error e => cases h
    | ok mc =>
      unfold moduleInit_src at h
      cases hr : (resolveAll_src fcc env parse b64 fetch fields none).1 with
      | error e => simp only [hr] at h; cases h
      | ok resolved =>
        simp only [hr] at h
        cases hl : loadSettings resolved with
        | error e => simp only [hl] at h; cases h
        | ok s =>
          simp only [hl] at h
          cases h
          rfl

/-- Concrete instance of `C9_cache_cleared_after_build`: a successful load
of the `src/api` variant in local mode ends with an empty cache. -/
theorem C9_witness :
    (ApiModule.mk [("ENVIRONMENT", PValue.str "local")] none).cache = none ∧
    (ApiModule.mk [("ENVIRONMENT", PValue.str "local")] none).cache
      = cache_clear (resolveAll_api (.ok ()) cEnvLocal cParseNone cB64 cFetchPlain
          [("ENVIRONMENT", PValue.undefined)] none).2 :=
  C9_cache_cleared_after_build.2.1 (.ok ()) cEnvLocal cParseNone cB64 cFetchPlain
    [("ENVIRONMENT", PValue.undefined)]
    (ApiModule.mk [("ENVIRONMENT", PValue.str "local")] none) rfl

/-- C10: importing `src/src/config.py` builds the module-scope client first
(any failure there propagates, before any field resolution and in every
mode), yet that client is dead state: the import outcome apart from the
stored client is identical for any two module clients, and a successful
load stores the client untouched. -/
theorem C10_module_client_unused :
    (∀ (e : AwsError) (fcc : Except AwsError Unit) (env : Env)
       (parse : String → Option PValue) (b64 : String → String)
       (fetch : Except AwsError StoreResponse) (fields : List (String × PValue)),
      moduleInit_src (.error e) fcc env parse b64 fetch fields
        = .error (.py (.aws e))) ∧
    (∀ (mc1 mc2 : String) (fcc : Except AwsError Unit) (env : Env)
       (parse : String → Option PValue) (b64 : String → String)
       (fetch : Except AwsError StoreResponse) (fields : List (String × PValue)),
      srcModuleSansClient (moduleInit_src (.ok mc1) fcc env parse b64 fetch fields)
        = srcModuleSansClient (moduleInit_src (.ok mc2) fcc env parse b64 fetch fields)) ∧
    (∀ (mc : String) (fcc : Except AwsError Unit) (env : Env)
       (parse : String → Option PValue) (b64 : String → String)
       (fetch : Except AwsError StoreResponse) (fields : List (String × PValue))
       (m : SrcModule),
      moduleInit_src (.ok mc) fcc env parse b64 fetch fields = .ok m →
      m.secretsmanager_client = mc) := by
  refine ⟨fun e fcc env parse b64 fetch fields => rfl, ?_, ?_⟩
  · intro mc1 mc2 fcc env parse b64 fetch fields
    unfold moduleInit_src
    cases hr : (resolveAll_src fcc env parse b64 fetch fields none).1 with
    | error e => simp only [hr]
    | ok resolved =>
      simp only [hr]
      cases hl : loadSettings resolved with
      | error e => simp only [hl]
      | ok s => simp only [hl, srcModuleSansClient]
  · intro mc fcc env parse b64 fetch fields m h
    unfold moduleInit_src at h
    cases hr : (resolveAll_src fcc env parse b64 fetch fields none).1 with
    | error e => simp only [hr] at h; cases h
    | ok resolved =>
      simp only [hr] at h
      cases hl : loadSettings resolved with
      | error e => simp only [hl] at h; cases h
      | ok s =>
        simp only [hl] at h
        cases h
        rfl

/-- Concrete instance of `C10_module_client_unused`: a successful import
stores the module client verbatim while the settings were served by
`get_secret`'s own fresh client. -/
theorem C10_witness :
    (SrcModule.mk "module-client" [("JWT_ALG", PValue.str "RS256")] none).secretsmanager_client
      = "module-client" :=
  C10_module_client_unused.2.2 "module-client" (.ok ()) cEnvProd cParse cB64
    cFetchPlain [("JWT_ALG", PValue.undefined)]
    (SrcModule.mk "module-client" [("JWT_ALG", PValue.str "RS256")] none) rfl

end Config
